import Mathlib

/-!
Verification development for the aspol-gps-esp32 tracker firmware
(`src/main.cpp`). The sampling, threshold-evaluation and event-logging
engine is shallowly embedded: C `float` values become `ℚ`, C character
buffers become `String` with explicit truncation, the monotonic
millisecond clock becomes a `ℕ` argument (wraparound of the 32/64-bit
counters is outside the model, which assumes a monotonic clock), and
every fallible I/O collaborator (SD card, GPS fix, RTC, file open) is an
explicit input. Each function below mirrors one function of the source
file; results carry the mutated state plus the lists of serial-monitor
messages and persisted log lines the call produces.
-/

/-! ## Constants from the source (`#define` / globals) -/

def PRESSURE_HISTORY_SIZE : Nat := 10

def SERIAL_BUFFER_SIZE : Nat := 100

/-- Source: `const float calibrationFactor = 7.5;` -/
def calibrationFactor : ℚ := 7.5

/-! ## Text helpers modelling the C formatting primitives -/

/-- Model of Arduino `String::trim`: strip leading and trailing whitespace.
(The core-library `String.trim` is extensionally the same but is awkward for
kernel evaluation, so the model is spelled out on the character list.) -/
def trimModel (s : String) : String :=
  ⟨((s.data.dropWhile Char.isWhitespace).reverse.dropWhile Char.isWhitespace).reverse⟩

/-- Source: `%02d`: decimal, zero-padded to width 2. -/
def pad2 (n : Nat) : String :=
  if n < 10 then "0" ++ toString n else toString n

/-- Source: `%04d`: decimal, zero-padded to width 4. -/
def pad4 (n : Nat) : String :=
  if n < 10 then "000" ++ toString n
  else if n < 100 then "00" ++ toString n
  else if n < 1000 then "0" ++ toString n
  else toString n

/-- Round a rational to the nearest integer (ties away from zero handled by
floor of `q + 1/2`, expressed with flooring integer division). -/
def roundNearest (q : ℚ) : ℤ :=
  (2 * q.num + q.den).fdiv (2 * q.den)

/-- Zero-pad the decimal rendering of `n` on the left to `w` digits. -/
def padLeftZeros (w : Nat) (n : Nat) : String :=
  let s := toString n
  ⟨List.replicate (w - s.length) '0'⟩ ++ s

/-- Model of `%.*f`: fixed-point rendering of a rational with `dp` digits
after the decimal point. -/
def fmtFixed (q : ℚ) (dp : Nat) : String :=
  let scaled := roundNearest (q * (10 ^ dp : ℚ))
  let sign := if scaled < 0 then "-" else ""
  let a := scaled.natAbs
  sign ++ toString (a / 10 ^ dp) ++ "." ++ padLeftZeros dp (a % 10 ^ dp)

/-! ## Circular sample buffers (`PressureHistory`, `FlowHistory`) -/

/-- Source: `struct PressureHistory { float readings[10]; int index; int count; }`.
The global instance is zero-initialized, so the model starts from a list of
ten zeros. -/
structure PressureHistory where
  readings : List ℚ
  index : Nat
  count : Nat
deriving Repr, DecidableEq

def initPressureHistory : PressureHistory :=
  ⟨List.replicate PRESSURE_HISTORY_SIZE 0, 0, 0⟩

/-- Source: `void addPressureReading(float pressure)` (source lines 86-94). -/
def addPressureReading (h : PressureHistory) (pressure : ℚ) : PressureHistory :=
  { readings := h.readings.set h.index pressure
    index := (h.index + 1) % PRESSURE_HISTORY_SIZE
    count := if h.count < PRESSURE_HISTORY_SIZE then h.count + 1 else h.count }

/-- Source: `float calculateAveragePressure()` (source lines 97-108): sum of
`readings[0..count-1]` divided by `count`, or 0 when `count == 0`. -/
def calculateAveragePressure (h : PressureHistory) : ℚ :=
  if h.count = 0 then 0
  else (h.readings.take h.count).sum / (h.count : ℚ)

/-- Source: `struct FlowHistory` (source lines 34-39); same layout and capacity as
the pressure history. -/
structure FlowHistory where
  readings : List ℚ
  index : Nat
  count : Nat
deriving Repr, DecidableEq

def initFlowHistory : FlowHistory :=
  ⟨List.replicate PRESSURE_HISTORY_SIZE 0, 0, 0⟩

/-- Source: `void addFlowReading(float flow)` (source lines 648-654). -/
def addFlowReading (h : FlowHistory) (flow : ℚ) : FlowHistory :=
  { readings := h.readings.set h.index flow
    index := (h.index + 1) % PRESSURE_HISTORY_SIZE
    count := if h.count < PRESSURE_HISTORY_SIZE then h.count + 1 else h.count }

/-- Source: `float calculateAverageFlow()` (source lines 656-664). -/
def calculateAverageFlow (h : FlowHistory) : ℚ :=
  if h.count = 0 then 0
  else (h.readings.take h.count).sum / (h.count : ℚ)

/-! ## Diagnostic ring buffer (`serialBuffer` / `serialPrintln` / `handleSerial`) -/

/-- Source: `struct LogMessage { unsigned long timestamp; char message[80]; }`.
The 80-byte C buffer holds at most 79 characters plus the terminating NUL;
the model keeps the truncated text. -/
structure LogMessage where
  timestamp : Nat
  message : String
deriving Repr, DecidableEq

structure SerialState where
  buffer : List LogMessage
  index : Nat
  total : Nat
deriving Repr, DecidableEq

def initSerialState : SerialState :=
  ⟨List.replicate SERIAL_BUFFER_SIZE ⟨0, ""⟩, 0, 0⟩

/-- Source: `void serialPrintln(const char *message)` (source lines 113-125):
`strncpy` into the 80-byte slot (truncation to 79 characters with forced
NUL termination), stamp with `millis()`, advance the index modulo the
capacity, and saturate `totalMessages` at the capacity. -/
def serialPrintln (now : Nat) (msg : String) (st : SerialState) : SerialState :=
  { buffer := st.buffer.set st.index ⟨now, msg.take 79⟩
    index := (st.index + 1) % SERIAL_BUFFER_SIZE
    total := if st.total < SERIAL_BUFFER_SIZE then st.total + 1 else st.total }

/-- The sequence of records `handleSerial` (source lines 252-268) reads out:
`totalMessages` slots starting at
`(serialBufferIndex - totalMessages + SERIAL_BUFFER_SIZE) % SERIAL_BUFFER_SIZE`
(the `int` arithmetic of the source equals this `ℕ` expression whenever
`totalMessages ≤ SERIAL_BUFFER_SIZE`, which `serialPrintln` maintains). -/
def handleSerialRecords (st : SerialState) : List LogMessage :=
  let start := (st.index + SERIAL_BUFFER_SIZE - st.total) % SERIAL_BUFFER_SIZE
  (List.range st.total).map
    (fun i => st.buffer.getD ((start + i) % SERIAL_BUFFER_SIZE) ⟨0, ""⟩)

/-! ## Configuration (`Config`, `loadConfig`, `saveConfig`, `handleConfig`) -/

/-- Source: `struct Config` (source lines 66-73) with its compiled-in defaults.
`char ssid[32]` etc. hold at most 31 characters, `char currentSensor[10]`
at most 9. -/
structure Config where
  ssid : String
  password : String
  deviceName : String
  currentSensor : String
  pressureThreshold : ℚ
  flowThreshold : ℚ
deriving Repr, DecidableEq

def defaultConfig : Config :=
  { ssid := "Aspol Tracker"
    password := "sulungresearch"
    deviceName := "PressureTracker"
    currentSensor := "BMP"
    pressureThreshold := 0.2
    flowThreshold := 20 }

/-- The persisted `/config.txt` contents: four text lines followed by the
two floats read back by `parseFloat`. Numeric serialization is modelled as
exact (the 2-decimal rendering of `println(float)` is a floating-point
formatting detail outside this model). A malformed numeric region makes
`parseFloat` return 0, so "malformed" is represented by a stored value
of 0 (or any non-positive value). -/
structure ConfigFile where
  ssidLine : String
  passwordLine : String
  deviceNameLine : String
  sensorLine : String
  pressureValue : ℚ
  flowValue : ℚ
deriving Repr, DecidableEq

/-- Source: `void saveConfig()` (source lines 224-240): one field per line, fixed
order. -/
def saveConfig (c : Config) : ConfigFile :=
  ⟨c.ssid, c.password, c.deviceName, c.currentSensor,
   c.pressureThreshold, c.flowThreshold⟩

/-- Source: `void loadConfig()` (source lines 183-222): read the four strings,
trim them, copy them into the fixed-size fields (`toCharArray` truncates
to the buffer size minus one), and apply each threshold only when it is
strictly positive, keeping the previous value otherwise. -/
def loadConfig (f : ConfigFile) (c : Config) : Config :=
  { ssid := (trimModel f.ssidLine).take 31
    password := (trimModel f.passwordLine).take 31
    deviceName := (trimModel f.deviceNameLine).take 31
    currentSensor := (trimModel f.sensorLine).take 9
    pressureThreshold :=
      if f.pressureValue > 0 then f.pressureValue else c.pressureThreshold
    flowThreshold :=
      if f.flowValue > 0 then f.flowValue else c.flowThreshold }

/-- The POST arguments consumed by `handleConfig`. The two threshold
fields carry the result of Arduino `String::toFloat`, which parses a
malformed or empty argument as 0. -/
structure ConfigArgs where
  sensorType : String
  pressureThresholdVal : ℚ
  flowThresholdVal : ℚ
  ssid : String
  password : String
  deviceName : String
deriving Repr, DecidableEq

/-- The configuration-mutating part of `void handleConfig()` (source lines
342-366): every field is overwritten from the request, except the password
which is kept when the submitted password is empty. (`strncpy` with the
buffer size truncates; the missing-NUL corner of `strncpy` at exactly the
buffer size is a memory-layout detail outside the model.) -/
def handleConfig (args : ConfigArgs) (c : Config) : Config :=
  { currentSensor := args.sensorType.take 9
    pressureThreshold := args.pressureThresholdVal
    flowThreshold := args.flowThresholdVal
    ssid := args.ssid.take 31
    password := if args.password.length > 0 then args.password.take 31 else c.password
    deviceName := args.deviceName.take 31 }

/-! ## Event logging (`logGPSData`, `logGPSDataFlow`) -/

structure GpsFix where
  valid : Bool
  lat : ℚ
  lng : ℚ
deriving Repr, DecidableEq

structure DateTimeR where
  day : Nat
  month : Nat
  year : Nat
  hour : Nat
  minute : Nat
  second : Nat
deriving Repr, DecidableEq

/-- The I/O collaborators an event-log call consults: the SD-card
availability flag, the GPS fix, the RTC wall clock, and whether the
append-mode `SD.open` succeeds. -/
structure LogEnv where
  sdCardAvailable : Bool
  gps : GpsFix
  now : DateTimeR
  fileOpenOk : Bool
deriving Repr, DecidableEq

/-- Source: `DD/MM/YYYY` (the `%02d/%02d/%04d` part of both log formats). -/
def datePart (t : DateTimeR) : String :=
  pad2 t.day ++ "/" ++ pad2 t.month ++ "/" ++ pad4 t.year

/-- Source: `HH:MM:SS` (the `%02d:%02d:%02d` part of both log formats). -/
def timePart (t : DateTimeR) : String :=
  pad2 t.hour ++ ":" ++ pad2 t.minute ++ ":" ++ pad2 t.second

/-- Source: `lat(6dp),lng(6dp),value(2dp)\n`: the common tail of both log lines. -/
def coordValuePart (lat lng value : ℚ) : String :=
  fmtFixed lat 6 ++ "," ++ fmtFixed lng 6 ++ "," ++ fmtFixed value 2 ++ "\n"

/-- The line `logGPSData` appends (source line 609): format string
`"%02d/%02d/%04d %02d:%02d:%02d,%.6f,%.6f,%.2f\n"` — note the space
between date and time. -/
def pressureLogLine (t : DateTimeR) (lat lng value : ℚ) : String :=
  datePart t ++ " " ++ timePart t ++ "," ++ coordValuePart lat lng value

/-- The line `logGPSDataFlow` appends (source line 706): format string
`"%02d/%02d/%04d,%02d:%02d:%02d,%.6f,%.6f,%.2f\n"` — comma between date
and time. -/
def flowLogLine (t : DateTimeR) (lat lng value : ℚ) : String :=
  datePart t ++ "," ++ timePart t ++ "," ++ coordValuePart lat lng value

/-- Modelled from the spec (section 6, "event log files"): the claimed
record shape `DD/MM/YYYY,HH:MM:SS,lat(6dp),lng(6dp),value(2dp)\n`, used
to compare the source's two writers against the specified format. -/
def specEventLine (t : DateTimeR) (lat lng value : ℚ) : String :=
  datePart t ++ "," ++ timePart t ++ "," ++ coordValuePart lat lng value

/-- Source: `void logGPSData(float pressure)` (source lines 598-625). Returns the
appended line (if any) and the serial-monitor messages emitted. A missing
SD card or GPS fix returns silently; a failed file open emits the
"Failed to open log file" diagnostic; a successful write emits the
"Logged data" message. -/
def logGPSData (env : LogEnv) (pressure : ℚ) : Option String × List String :=
  if !env.sdCardAvailable || !env.gps.valid then (none, [])
  else if env.fileOpenOk then
    (some (pressureLogLine env.now env.gps.lat env.gps.lng pressure),
     ["Logged data: " ++ fmtFixed pressure 2 ++ " hPa"])
  else (none, ["Failed to open log file"])

/-- Source: `void logGPSDataFlow(float flow)` (source lines 698-712). Returns the
appended line (if any) and the serial-monitor messages emitted; this
function never emits a serial message, not even when the file open fails. -/
def logGPSDataFlow (env : LogEnv) (flow : ℚ) : Option String × List String :=
  if !env.sdCardAvailable || !env.gps.valid then (none, [])
  else if env.fileOpenOk then
    (some (flowLogLine env.now env.gps.lat env.gps.lng flow), [])
  else (none, [])

/-! ## Pressure path (`checkPressureAndLog`) -/

/-- The per-call inputs of `checkPressureAndLog`: the BMP init flag, the
raw `bmp.readPressure()` value, and the logging collaborators. -/
structure PressureEnv where
  bmpInitialized : Bool
  rawPressure : ℚ
  log : LogEnv
deriving Repr, DecidableEq

structure PressureResult where
  history : PressureHistory
  serialMsgs : List String
  logLines : List String
deriving Repr, DecidableEq

/-- The `snprintf` message of source lines 784-787. -/
def pressureExceededMsg (pressure avg threshold : ℚ) : String :=
  "Pressure threshold exceeded: " ++ fmtFixed pressure 2 ++ " hPa (Avg: " ++
    fmtFixed avg 2 ++ ", Threshold: " ++ fmtFixed threshold 2 ++ ")"

/-- Source: `void checkPressureAndLog()` (source lines 762-791). -/
def checkPressureAndLog (cfg : Config) (env : PressureEnv)
    (h : PressureHistory) : PressureResult :=
  if !env.bmpInitialized then
    ⟨h, ["BMP sensor not initialized"], []⟩
  else if env.rawPressure ≤ 0 then
    ⟨h, ["Invalid pressure reading"], []⟩
  else
    let pressure := env.rawPressure / 100
    let h2 := addPressureReading h pressure
    let averagePressure := calculateAveragePressure h2
    let thresholdLevel := averagePressure * (1 + cfg.pressureThreshold / 100)
    if pressure > thresholdLevel then
      let logged := logGPSData env.log pressure
      ⟨h2, pressureExceededMsg pressure averagePressure thresholdLevel :: logged.2,
        logged.1.toList⟩
    else ⟨h2, [], []⟩

/-! ## Flow path (`checkFlowAndLog`) -/

/-- The mutable state `checkFlowAndLog` works on: the flow history, the
global `flowRate` and `pulseCount`, the function-static `lastCheckTime`,
and the global `lastLogTime` (initialized to 3000 in the source). The
interrupt handler's increments of `pulseCount` between calls are modelled
by the caller changing this field. -/
structure FlowState where
  flowHistory : FlowHistory
  flowRate : ℚ
  pulseCount : Nat
  lastCheckTime : Nat
  lastLogTime : Nat
deriving Repr, DecidableEq

def initFlowState : FlowState :=
  ⟨initFlowHistory, 0, 0, 0, 3000⟩

structure FlowResult where
  state : FlowState
  serialMsgs : List String
  logLines : List String
deriving Repr, DecidableEq

/-- The `snprintf` message of source line 692. -/
def flowRateMsg (rate avg threshold : ℚ) : String :=
  "Flow rate: " ++ fmtFixed rate 2 ++ " L/min (Avg: " ++ fmtFixed avg 2 ++
    "/T: " ++ fmtFixed threshold 2 ++ ")"

/-- Source: `void checkFlowAndLog()` (source lines 666-696). `timeDiff == 0`
returns immediately; at `timeDiff >= 1000` the pulse counter is drained
into a new rate (`(pulseCount / 7.5) * (1000.0 / max(timeDiff, 100))`)
which is pushed into the history; the threshold is then evaluated every
call, and the rate-limited logging branch updates `lastLogTime`
unconditionally before attempting the SD write. -/
def checkFlowAndLog (cfg : Config) (currentTime : Nat) (env : LogEnv)
    (st : FlowState) : FlowResult :=
  let timeDiff := currentTime - st.lastCheckTime
  let test1 : Nat := 100
  if timeDiff = 0 then ⟨st, [], []⟩
  else
    let st1 :=
      if 1000 ≤ timeDiff then
        let newRate := ((st.pulseCount : ℚ) / calibrationFactor) *
          (1000 / ((max timeDiff test1 : Nat) : ℚ))
        { st with
            flowRate := newRate
            pulseCount := 0
            lastCheckTime := currentTime
            flowHistory := addFlowReading st.flowHistory newRate }
      else st
    let averageFlow := calculateAverageFlow st1.flowHistory
    let threshold := averageFlow * (1 + cfg.flowThreshold / 100)
    if st1.flowRate > threshold ∧ 2500 < currentTime - st1.lastLogTime then
      let logged := logGPSDataFlow env st1.flowRate
      ⟨{ st1 with lastLogTime := currentTime },
        [flowRateMsg st1.flowRate averageFlow threshold], logged.1.toList⟩
    else ⟨st1, [], []⟩

/-! ## Generic ring-buffer theory

`PressureHistory`, `FlowHistory` and the serial `LogMessage` buffer all
follow the same write-index/saturating-count discipline, so the invariants
are proved once over a generic state and transported to each instance
(which is definitionally an `RB` update). -/

structure RB (α : Type) where
  buf : List α
  idx : Nat
  cnt : Nat

def RB.push (C : Nat) (r : RB α) (v : α) : RB α :=
  { buf := r.buf.set r.idx v
    idx := (r.idx + 1) % C
    cnt := if r.cnt < C then r.cnt + 1 else r.cnt }

def RB.pushAll (C : Nat) (r : RB α) (vs : List α) : RB α :=
  vs.foldl (RB.push C) r

def RB.init (C : Nat) (d : α) : RB α :=
  ⟨List.replicate C d, 0, 0⟩

/-- The snapshot read-out: `cnt` slots starting at `(idx + C - cnt) % C`. -/
def RB.window (C : Nat) (d : α) (r : RB α) : List α :=
  (List.range r.cnt).map
    (fun i => r.buf.getD (((r.idx + C - r.cnt) % C + i) % C) d)

theorem succ_mod_eq (n C : Nat) : (n % C + 1) % C = (n + 1) % C :=
  Nat.ModEq.add_right 1 (Nat.mod_modEq n C)

theorem set_append_len : ∀ (l₁ : List α) (a v : α) (l₂ : List α),
    (l₁ ++ a :: l₂).set l₁.length v = l₁ ++ v :: l₂
  | [], _, _, _ => rfl
  | x :: xs, a, v, l₂ => by
    simp only [List.cons_append, List.length_cons, List.set_cons_succ]
    exact congrArg (x :: ·) (set_append_len xs a v l₂)

theorem range_map_getD (l : List α) (d : α) :
    (List.range l.length).map (fun i => l.getD i d) = l := by
  apply List.ext_getElem
  · simp
  · intro n h1 h2
    simp only [List.getElem_map, List.getElem_range]
    exact List.getD_eq_getElem l d h2

/-- Overwriting the oldest slot and advancing the index rotates the ring
window by one and appends the new value. -/
theorem set_rotate_succ (C : Nat) (l : List α) (hl : l.length = C)
    (r : Nat) (hr : r < C) (v : α) :
    (l.set r v).rotate ((r + 1) % C) = (l.rotate r).tail ++ [v] := by
  have hrlen : r < l.length := hl ▸ hr
  obtain ⟨l₁, a, l₂, rfl, h1, h2⟩ :
      ∃ (l₁ : List α) (a : α) (l₂ : List α),
        l = l₁ ++ a :: l₂ ∧ l₁.length = r ∧ l₂.length = C - r - 1 := by
    refine ⟨l.take r, l[r], l.drop (r + 1), ?_, ?_, ?_⟩
    · rw [← List.drop_eq_getElem_cons hrlen, List.take_append_drop]
    · simp [List.length_take, Nat.min_eq_left hrlen.le]
    · rw [List.length_drop, hl]
      omega
  have hset : (l₁ ++ a :: l₂).set r v = l₁ ++ v :: l₂ := by
    rw [← h1, set_append_len]
  have hrot : (l₁ ++ a :: l₂).rotate r = (a :: l₂) ++ l₁ := by
    rw [List.rotate_eq_drop_append_take (by simp [← h1])]
    rw [← h1, List.drop_left, List.take_left]
  rcases Nat.lt_or_ge (r + 1) C with hc | hc
  · have hmod : (r + 1) % C = r + 1 := Nat.mod_eq_of_lt hc
    have hlen' : (l₁ ++ v :: l₂).length = C := by
      simpa [List.length_append, h1] using (by simpa [List.length_append, h1] using hl)
    rw [hset, hmod, List.rotate_eq_drop_append_take (by rw [hlen']; exact hc.le)]
    have hdrop : (l₁ ++ v :: l₂).drop (r + 1) = l₂ := by
      rw [List.drop_append_eq_append_drop, h1]
      simp
      omega
    have htake : (l₁ ++ v :: l₂).take (r + 1) = l₁ ++ [v] := by
      rw [List.take_append_eq_append_take, h1,
        List.take_of_length_le (by omega : l₁.length ≤ r + 1)]
      simp
    rw [hdrop, htake, hrot]
    simp [List.append_assoc]
  · have hCr : C = r + 1 := Nat.le_antisymm hc (Nat.succ_le_of_lt hr)
    have h2' : l₂ = [] := by
      apply List.eq_nil_of_length_eq_zero
      omega
    subst h2'
    have hmod : (r + 1) % C = 0 := by rw [hCr, Nat.mod_self]
    rw [hset, hmod, List.rotate_zero, hrot]
    simp

/-- Core invariant of the ring discipline: after pushing `vs` into a fresh
buffer, the length is the capacity, the index is the push count modulo the
capacity, the stored count saturates at the capacity, and the contents are
the pushed values (padded while filling, a rotation of the last `C` pushes
once full). -/
theorem RB.pushAll_inv (C : Nat) (hC : 0 < C) (d : α) (vs : List α) :
    ((RB.pushAll C (RB.init C d) vs).buf.length = C) ∧
    ((RB.pushAll C (RB.init C d) vs).idx = vs.length % C) ∧
    ((RB.pushAll C (RB.init C d) vs).cnt = min vs.length C) ∧
    (if vs.length < C
      then (RB.pushAll C (RB.init C d) vs).buf = vs ++ List.replicate (C - vs.length) d
      else (RB.pushAll C (RB.init C d) vs).buf.rotate
             ((RB.pushAll C (RB.init C d) vs).idx) = vs.drop (vs.length - C)) := by
  induction vs using List.reverseRecOn with
  | nil =>
    refine ⟨by simp [RB.pushAll, RB.init], by simp [RB.pushAll, RB.init],
      by simp [RB.pushAll, RB.init], ?_⟩
    simp only [List.length_nil]
    rw [if_pos hC]
    simp [RB.pushAll, RB.init]
  | append_singleton xs x ih =>
    obtain ⟨ih1, ih2, ih3, ih4⟩ := ih
    have hstep : RB.pushAll C (RB.init C d) (xs ++ [x]) =
        RB.push C (RB.pushAll C (RB.init C d) xs) x := by
      simp [RB.pushAll, List.foldl_append]
    set r := RB.pushAll C (RB.init C d) xs with hr
    set n := xs.length with hn
    have hlen : (xs ++ [x]).length = n + 1 := by simp [hn]
    have hbuf1 : (RB.push C r x).buf = r.buf.set r.idx x := rfl
    have hidx1 : (RB.push C r x).idx = (r.idx + 1) % C := rfl
    have hcnt1 : (RB.push C r x).cnt = if r.cnt < C then r.cnt + 1 else r.cnt := rfl
    refine ⟨?_, ?_, ?_, ?_⟩
    · rw [hstep, hbuf1, List.length_set, ih1]
    · rw [hstep, hidx1, ih2, hlen, succ_mod_eq]
    · rw [hstep, hcnt1, ih3, hlen]
      split_ifs <;> omega
    · rw [hstep, hlen]
      rcases Nat.lt_or_ge n C with hnC | hnC
      · -- the buffer was still filling up
        rw [if_pos hnC] at ih4
        have hidxn : r.idx = n := by rw [ih2, Nat.mod_eq_of_lt hnC]
        have hrepl : C - n = (C - (n + 1)) + 1 := by omega
        have hsplit : r.buf = xs ++ d :: List.replicate (C - (n + 1)) d := by
          rw [ih4, hrepl, List.replicate_succ]
        have hset : (RB.push C r x).buf =
            (xs ++ [x]) ++ List.replicate (C - (n + 1)) d := by
          rw [hbuf1, hsplit, hidxn, hn, set_append_len]
          simp [hn]
        rcases Nat.lt_or_ge (n + 1) C with hc1 | hc1
        · rw [if_pos hc1, hset]
        · have hc2 : n + 1 = C := by omega
          rw [if_neg (by omega)]
          have : C - (n + 1) = 0 := by omega
          rw [hidx1, hidxn, hc2, Nat.mod_self, List.rotate_zero, hset, this]
          simp [hc2]
      · -- the buffer was already full and rotates
        rw [if_neg (by omega)] at ih4
        rw [if_neg (by omega)]
        have hidxlt : r.idx < C := by
          rw [ih2]
          exact Nat.mod_lt _ hC
        rw [hbuf1, hidx1, set_rotate_succ C r.buf ih1 r.idx hidxlt x, ih4]
        rw [List.tail_drop, List.drop_append_eq_append_drop]
        have h1 : n + 1 - C ≤ n := by omega
        have h2 : n + 1 - C - n = 0 := by omega
        have h3 : n - C + 1 = n + 1 - C := by omega
        rw [h2, h3]
        simp [hn]

/-- The snapshot window after `N` pushes is exactly the last `min N C`
pushed values, oldest first. -/
theorem RB.window_pushAll (C : Nat) (hC : 0 < C) (d : α) (vs : List α) :
    RB.window C d (RB.pushAll C (RB.init C d) vs) =
      vs.drop (vs.length - min vs.length C) := by
  obtain ⟨ih1, ih2, ih3, ih4⟩ := RB.pushAll_inv C hC d vs
  set r := RB.pushAll C (RB.init C d) vs with hr
  set n := vs.length with hn
  rcases Nat.lt_or_ge n C with hnC | hnC
  · rw [if_pos hnC] at ih4
    have hidxn : r.idx = n := by rw [ih2, Nat.mod_eq_of_lt hnC]
    have hcnt : r.cnt = n := by rw [ih3]; omega
    have hmin : n - min n C = 0 := by omega
    rw [RB.window, hidxn, hcnt, hmin, List.drop_zero]
    have hstart : (n + C - n) % C = 0 := by
      have : n + C - n = C := by omega
      rw [this, Nat.mod_self]
    rw [hstart]
    have hcongr : (List.range n).map
        (fun i => r.buf.getD ((0 + i) % C) d) =
        (List.range n).map (fun i => vs.getD i d) := by
      apply List.map_congr_left
      intro i hi
      have hiC : i < C := by
        have := List.mem_range.mp hi
        omega
      have hin : i < n := List.mem_range.mp hi
      rw [Nat.zero_add, Nat.mod_eq_of_lt hiC, ih4,
        List.getD_append _ _ _ _ (by rw [← hn]; exact hin)]
    rw [hcongr, hn, range_map_getD]
  · rw [if_neg (by omega)] at ih4
    have hidxlt : r.idx < C := by rw [ih2]; exact Nat.mod_lt _ hC
    have hcnt : r.cnt = C := by rw [ih3]; omega
    have hmin : n - min n C = n - C := by omega
    have hwlen : (r.buf.rotate r.idx).length = C := by
      rw [List.length_rotate, ih1]
    rw [RB.window, hcnt, hmin]
    have hstart : (r.idx + C - C) % C = r.idx := by
      have : r.idx + C - C = r.idx := by omega
      rw [this, Nat.mod_eq_of_lt hidxlt]
    rw [hstart]
    have hcongr : (List.range C).map
        (fun i => r.buf.getD ((r.idx + i) % C) d) =
        (List.range C).map (fun i => (r.buf.rotate r.idx).getD i d) := by
      apply List.map_congr_left
      intro i hi
      have hiC : i < C := List.mem_range.mp hi
      have hb1 : (r.idx + i) % C < r.buf.length := by
        rw [ih1]
        exact Nat.mod_lt _ hC
      have hb2 : i < (r.buf.rotate r.idx).length := by rw [hwlen]; exact hiC
      rw [List.getD_eq_getElem _ _ hb1, List.getD_eq_getElem _ _ hb2,
        List.getElem_rotate]
      congr 1
      rw [ih1, Nat.add_comm]
    rw [hcongr]
    have : (List.range C).map (fun i => (r.buf.rotate r.idx).getD i d) =
        r.buf.rotate r.idx := by
      conv_lhs => rw [← hwlen]
      exact range_map_getD _ d
    rw [this, ih4]

/-- The slots summed by the average functions (`buf.take cnt`) are a
permutation of the last `min N C` pushed values. -/
theorem RB.take_cnt_perm (C : Nat) (hC : 0 < C) (d : α) (vs : List α) :
    ((RB.pushAll C (RB.init C d) vs).buf.take
      (RB.pushAll C (RB.init C d) vs).cnt).Perm
      (vs.drop (vs.length - min vs.length C)) := by
  obtain ⟨ih1, ih2, ih3, ih4⟩ := RB.pushAll_inv C hC d vs
  set r := RB.pushAll C (RB.init C d) vs with hr
  set n := vs.length with hn
  rcases Nat.lt_or_ge n C with hnC | hnC
  · rw [if_pos hnC] at ih4
    have hcnt : r.cnt = n := by rw [ih3]; omega
    have hmin : n - min n C = 0 := by omega
    rw [hcnt, hmin, List.drop_zero, ih4, hn, List.take_left]
  · rw [if_neg (by omega)] at ih4
    have hcnt : r.cnt = C := by rw [ih3]; omega
    have hmin : n - min n C = n - C := by omega
    have htk : r.buf.take C = r.buf :=
      List.take_of_length_le (by rw [ih1])
    rw [hcnt, hmin, htk, ← ih4]
    exact (List.rotate_perm r.buf r.idx).symm

/-! ## Bridging the source structures to the generic ring state -/

def PressureHistory.toRB (h : PressureHistory) : RB ℚ :=
  ⟨h.readings, h.index, h.count⟩

def FlowHistory.toRB (h : FlowHistory) : RB ℚ :=
  ⟨h.readings, h.index, h.count⟩

def SerialState.toRB (st : SerialState) : RB LogMessage :=
  ⟨st.buffer, st.index, st.total⟩

/-- A whole run of `addPressureReading` calls. -/
def pushAllPressure (h : PressureHistory) (vs : List ℚ) : PressureHistory :=
  vs.foldl addPressureReading h

/-- A whole run of `addFlowReading` calls. -/
def pushAllFlow (h : FlowHistory) (vs : List ℚ) : FlowHistory :=
  vs.foldl addFlowReading h

/-- A whole run of `serialPrintln` calls, each with its `millis()` stamp. -/
def pushAllSerial (st : SerialState) (ps : List (Nat × String)) : SerialState :=
  ps.foldl (fun s p => serialPrintln p.1 p.2 s) st

theorem pushAllPressure_toRB : ∀ (vs : List ℚ) (h : PressureHistory),
    (pushAllPressure h vs).toRB = RB.pushAll PRESSURE_HISTORY_SIZE h.toRB vs
  | [], _ => rfl
  | v :: vs, h => pushAllPressure_toRB vs (addPressureReading h v)

theorem pushAllFlow_toRB : ∀ (vs : List ℚ) (h : FlowHistory),
    (pushAllFlow h vs).toRB = RB.pushAll PRESSURE_HISTORY_SIZE h.toRB vs
  | [], _ => rfl
  | v :: vs, h => pushAllFlow_toRB vs (addFlowReading h v)

theorem pushAllSerial_toRB : ∀ (ps : List (Nat × String)) (st : SerialState),
    (pushAllSerial st ps).toRB =
      RB.pushAll SERIAL_BUFFER_SIZE st.toRB
        (ps.map (fun p => LogMessage.mk p.1 (p.2.take 79)))
  | [], _ => rfl
  | p :: ps, st => pushAllSerial_toRB ps (serialPrintln p.1 p.2 st)

theorem handleSerialRecords_eq_window (st : SerialState) :
    handleSerialRecords st = RB.window SERIAL_BUFFER_SIZE ⟨0, ""⟩ st.toRB := rfl

/-! ## C2: circular sample buffer count and mean -/

/-- C2. For every sequence of `N` pushes into either history buffer
(capacity `C = PRESSURE_HISTORY_SIZE = 10`), the stored count is
`min N C`, and the average function returns the arithmetic mean of
exactly the last `min N C` pushed values — returning 0 (not an error)
for the empty buffer. -/
theorem C2_buffer_count_and_mean (vs : List ℚ) :
    (pushAllPressure initPressureHistory vs).count
        = min vs.length PRESSURE_HISTORY_SIZE ∧
    calculateAveragePressure (pushAllPressure initPressureHistory vs) =
      (if vs.length = 0 then 0
       else (vs.drop (vs.length - min vs.length PRESSURE_HISTORY_SIZE)).sum /
         ((min vs.length PRESSURE_HISTORY_SIZE : Nat) : ℚ)) ∧
    (pushAllFlow initFlowHistory vs).count
        = min vs.length PRESSURE_HISTORY_SIZE ∧
    calculateAverageFlow (pushAllFlow initFlowHistory vs) =
      (if vs.length = 0 then 0
       else (vs.drop (vs.length - min vs.length PRESSURE_HISTORY_SIZE)).sum /
         ((min vs.length PRESSURE_HISTORY_SIZE : Nat) : ℚ)) := by
  have hC : 0 < PRESSURE_HISTORY_SIZE := by norm_num [PRESSURE_HISTORY_SIZE]
  obtain ⟨_, _, i3, _⟩ := RB.pushAll_inv PRESSURE_HISTORY_SIZE hC (0 : ℚ) vs
  have hperm := RB.take_cnt_perm PRESSURE_HISTORY_SIZE hC (0 : ℚ) vs
  have hpb : (pushAllPressure initPressureHistory vs).toRB =
      RB.pushAll PRESSURE_HISTORY_SIZE (RB.init PRESSURE_HISTORY_SIZE 0) vs :=
    pushAllPressure_toRB vs initPressureHistory
  have hfb : (pushAllFlow initFlowHistory vs).toRB =
      RB.pushAll PRESSURE_HISTORY_SIZE (RB.init PRESSURE_HISTORY_SIZE 0) vs :=
    pushAllFlow_toRB vs initFlowHistory
  have hpcount : (pushAllPressure initPressureHistory vs).count
      = min vs.length PRESSURE_HISTORY_SIZE := by
    have := congrArg RB.cnt hpb
    simpa [PressureHistory.toRB, i3] using this
  have hpread : (pushAllPressure initPressureHistory vs).readings =
      (RB.pushAll PRESSURE_HISTORY_SIZE (RB.init PRESSURE_HISTORY_SIZE 0) vs).buf :=
    congrArg RB.buf hpb
  have hfcount : (pushAllFlow initFlowHistory vs).count
      = min vs.length PRESSURE_HISTORY_SIZE := by
    have := congrArg RB.cnt hfb
    simpa [FlowHistory.toRB, i3] using this
  have hfread : (pushAllFlow initFlowHistory vs).readings =
      (RB.pushAll PRESSURE_HISTORY_SIZE (RB.init PRESSURE_HISTORY_SIZE 0) vs).buf :=
    congrArg RB.buf hfb
  have hsum : ((RB.pushAll PRESSURE_HISTORY_SIZE (RB.init PRESSURE_HISTORY_SIZE 0) vs).buf.take
      (min vs.length PRESSURE_HISTORY_SIZE)).sum =
      (vs.drop (vs.length - min vs.length PRESSURE_HISTORY_SIZE)).sum := by
    have h := hperm.sum_eq
    rwa [i3] at h
  have hmean : ∀ (cnt : Nat) (rd : List ℚ),
      cnt = min vs.length PRESSURE_HISTORY_SIZE →
      rd = (RB.pushAll PRESSURE_HISTORY_SIZE (RB.init PRESSURE_HISTORY_SIZE 0) vs).buf →
      (if cnt = 0 then (0 : ℚ) else (rd.take cnt).sum / (cnt : ℚ)) =
        (if vs.length = 0 then 0
         else (vs.drop (vs.length - min vs.length PRESSURE_HISTORY_SIZE)).sum /
           ((min vs.length PRESSURE_HISTORY_SIZE : Nat) : ℚ)) := by
    intro cnt rd hcnt hrd
    subst hcnt hrd
    rcases Nat.eq_zero_or_pos vs.length with h0 | h0
    · rw [if_pos (by omega), if_pos h0]
    · have h10 : 0 < PRESSURE_HISTORY_SIZE := by norm_num [PRESSURE_HISTORY_SIZE]
      rw [if_neg (by omega), if_neg (by omega), hsum]
  exact ⟨hpcount,
    by rw [calculateAveragePressure, hpcount, hpread]; exact hmean _ _ rfl rfl,
    hfcount,
    by rw [calculateAverageFlow, hfcount, hfread]; exact hmean _ _ rfl rfl⟩

/-! ## C8: diagnostic ring buffer -/

/-- C8. `serialPrintln` truncates the text to 79 characters, advances the
write index modulo the capacity (100), and saturates `totalMessages` at
the capacity; after any sequence of writes — in particular `capacity + 5`
of them — `totalMessages = min N 100` and the `handleSerial` read-out is
exactly the most recent `min N 100` records, oldest first, starting at
offset `(writeIndex - totalMessages + capacity) mod capacity`. -/
theorem C8_serial_ring (ps : List (Nat × String)) :
    (pushAllSerial initSerialState ps).total = min ps.length SERIAL_BUFFER_SIZE ∧
    (pushAllSerial initSerialState ps).index = ps.length % SERIAL_BUFFER_SIZE ∧
    handleSerialRecords (pushAllSerial initSerialState ps) =
      (ps.map (fun p => LogMessage.mk p.1 (p.2.take 79))).drop
        (ps.length - min ps.length SERIAL_BUFFER_SIZE) := by
  have hC : 0 < SERIAL_BUFFER_SIZE := by norm_num [SERIAL_BUFFER_SIZE]
  set recs := ps.map (fun p => LogMessage.mk p.1 (p.2.take 79)) with hrecs
  have hlen : recs.length = ps.length := by simp [hrecs]
  obtain ⟨_, i2, i3, _⟩ :=
    RB.pushAll_inv SERIAL_BUFFER_SIZE hC (LogMessage.mk 0 "") recs
  have hwin := RB.window_pushAll SERIAL_BUFFER_SIZE hC (LogMessage.mk 0 "") recs
  have hb : (pushAllSerial initSerialState ps).toRB =
      RB.pushAll SERIAL_BUFFER_SIZE (RB.init SERIAL_BUFFER_SIZE ⟨0, ""⟩) recs :=
    pushAllSerial_toRB ps initSerialState
  refine ⟨?_, ?_, ?_⟩
  · have := congrArg RB.cnt hb
    simpa [SerialState.toRB, i3, hlen] using this
  · have := congrArg RB.idx hb
    simpa [SerialState.toRB, i2, hlen] using this
  · rw [handleSerialRecords_eq_window, hb, hwin, hlen]

/-! ## Characterization lemmas for the two sensor paths -/

theorem checkPressure_run (cfg : Config) (env : PressureEnv) (h : PressureHistory)
    (hb : env.bmpInitialized = true) (hr : 0 < env.rawPressure) :
    checkPressureAndLog cfg env h =
      (let p := env.rawPressure / 100
       let h2 := addPressureReading h p
       let avg := calculateAveragePressure h2
       let thr := avg * (1 + cfg.pressureThreshold / 100)
       if p > thr then
         ⟨h2, pressureExceededMsg p avg thr :: (logGPSData env.log p).2,
           (logGPSData env.log p).1.toList⟩
       else ⟨h2, [], []⟩) := by
  simp only [checkPressureAndLog, hb, Bool.not_true, Bool.false_eq_true, if_false,
    if_neg (not_le.mpr hr)]

theorem checkFlow_noop (cfg : Config) (t : Nat) (env : LogEnv) (st : FlowState)
    (h0 : t - st.lastCheckTime = 0) :
    checkFlowAndLog cfg t env st = ⟨st, [], []⟩ := by
  simp only [checkFlowAndLog, h0, if_pos rfl, if_true]

theorem checkFlow_noact (cfg : Config) (t : Nat) (env : LogEnv) (st : FlowState)
    (h0 : t - st.lastCheckTime ≠ 0) (h1 : t - st.lastCheckTime < 1000) :
    checkFlowAndLog cfg t env st =
      (let avg := calculateAverageFlow st.flowHistory
       let thr := avg * (1 + cfg.flowThreshold / 100)
       if st.flowRate > thr ∧ 2500 < t - st.lastLogTime then
         ⟨{ st with lastLogTime := t }, [flowRateMsg st.flowRate avg thr],
           (logGPSDataFlow env st.flowRate).1.toList⟩
       else ⟨st, [], []⟩) := by
  simp only [checkFlowAndLog, if_neg h0, if_neg (by omega : ¬ 1000 ≤ t - st.lastCheckTime)]

theorem checkFlow_act (cfg : Config) (t : Nat) (env : LogEnv) (st : FlowState)
    (h1 : 1000 ≤ t - st.lastCheckTime) :
    checkFlowAndLog cfg t env st =
      (let newRate := ((st.pulseCount : ℚ) / calibrationFactor) *
        (1000 / ((max (t - st.lastCheckTime) 100 : Nat) : ℚ))
       let st1 : FlowState :=
         ⟨addFlowReading st.flowHistory newRate, newRate, 0, t, st.lastLogTime⟩
       let avg := calculateAverageFlow st1.flowHistory
       let thr := avg * (1 + cfg.flowThreshold / 100)
       if newRate > thr ∧ 2500 < t - st.lastLogTime then
         ⟨{ st1 with lastLogTime := t }, [flowRateMsg newRate avg thr],
           (logGPSDataFlow env newRate).1.toList⟩
       else ⟨st1, [], []⟩) := by
  simp only [checkFlowAndLog, if_neg (by omega : ¬ t - st.lastCheckTime = 0), if_pos h1]

/-! ## Concrete inputs used by witnesses and counterexamples -/

def envAllOk : LogEnv := ⟨true, ⟨true, 3/2, 5/2⟩, ⟨1, 2, 2025, 3, 4, 5⟩, true⟩

def envNoSD : LogEnv := ⟨false, ⟨true, 3/2, 5/2⟩, ⟨1, 2, 2025, 3, 4, 5⟩, true⟩

def envNoGPS : LogEnv := ⟨true, ⟨false, 3/2, 5/2⟩, ⟨1, 2, 2025, 3, 4, 5⟩, true⟩

def envNoFile : LogEnv := ⟨true, ⟨true, 3/2, 5/2⟩, ⟨1, 2, 2025, 3, 4, 5⟩, false⟩

/-! ## C6: non-positive pressure reading -/

/-- C6. With the sensor initialized, a non-positive raw reading emits
exactly the one "Invalid pressure reading" diagnostic, leaves the history
buffer untouched, and skips the evaluation and logging entirely. -/
theorem C6_nonpositive_reading (cfg : Config) (env : PressureEnv)
    (h : PressureHistory) (hb : env.bmpInitialized = true)
    (hr : env.rawPressure ≤ 0) :
    checkPressureAndLog cfg env h = ⟨h, ["Invalid pressure reading"], []⟩ := by
  simp only [checkPressureAndLog, hb, Bool.not_true, Bool.false_eq_true, if_false,
    if_pos hr]

theorem C6_witness :
    (⟨true, -5, envAllOk⟩ : PressureEnv).bmpInitialized = true ∧
    (⟨true, -5, envAllOk⟩ : PressureEnv).rawPressure ≤ 0 ∧
    checkPressureAndLog defaultConfig ⟨true, -5, envAllOk⟩ initPressureHistory =
      ⟨initPressureHistory, ["Invalid pressure reading"], []⟩ :=
  ⟨rfl, by norm_num,
    C6_nonpositive_reading defaultConfig ⟨true, -5, envAllOk⟩ initPressureHistory
      rfl (by norm_num)⟩

/-! ## C5: missing GPS fix / missing storage -/

/-- C5 counterexample. With the SD card unavailable (GPS fix valid), both
event writers suppress the record but append **no** diagnostic — the
serial-message component is empty for both paths, contradicting the
claim that a diagnostic record is appended when storage is unavailable. -/
theorem C5_counterexample :
    (logGPSData envNoSD 5).1 = none ∧ (logGPSData envNoSD 5).2 = [] ∧
    (logGPSDataFlow envNoSD 5).1 = none ∧ (logGPSDataFlow envNoSD 5).2 = [] :=
  ⟨rfl, rfl, rfl, rfl⟩

/-- C5 (amended). A missing GPS fix suppresses the write entirely for both
paths (no record, no diagnostic). A missing SD card *also* suppresses the
write silently for both paths — no diagnostic is appended. Only the
pressure path emits a diagnostic, and only in the distinct case where the
card is nominally available but opening the log file fails; the flow path
is silent even then. -/
theorem C5_suppression (env : LogEnv) (v : ℚ) :
    (env.gps.valid = false →
      logGPSData env v = (none, []) ∧ logGPSDataFlow env v = (none, [])) ∧
    (env.sdCardAvailable = false →
      logGPSData env v = (none, []) ∧ logGPSDataFlow env v = (none, [])) ∧
    (env.sdCardAvailable = true → env.gps.valid = true → env.fileOpenOk = false →
      logGPSData env v = (none, ["Failed to open log file"]) ∧
      logGPSDataFlow env v = (none, [])) := by
  refine ⟨fun hg => ?_, fun hs => ?_, fun hs hg hf => ?_⟩
  · constructor <;> simp [logGPSData, logGPSDataFlow, hg]
  · constructor <;> simp [logGPSData, logGPSDataFlow, hs]
  · constructor <;> simp [logGPSData, logGPSDataFlow, hs, hg, hf]

theorem C5_witness :
    envNoGPS.gps.valid = false ∧
    (logGPSData envNoGPS 5 = (none, []) ∧ logGPSDataFlow envNoGPS 5 = (none, [])) ∧
    envNoFile.fileOpenOk = false ∧
    (logGPSData envNoFile 5 = (none, ["Failed to open log file"]) ∧
      logGPSDataFlow envNoFile 5 = (none, [])) :=
  ⟨rfl, (C5_suppression envNoGPS 5).1 rfl, rfl,
    (C5_suppression envNoFile 5).2.2 rfl rfl rfl⟩

/-! ## C1: threshold evaluation -/

/-- C1. Threshold evaluation: the pressure path flags (and only flags) a
sample when the live value strictly exceeds
`average * (1 + thresholdPct/100)` computed over the buffer that includes
the just-pushed live value; the flow path's flag is the same strict
comparison (conjoined with its C4 rate-limit gate); the averages are 0 on
an empty buffer; and at `average = 100`, `pct = 20` the threshold is
exactly 120, with 120 not anomalous (strict `>`) and 120.01 anomalous. -/
theorem C1_threshold_evaluation :
    (∀ (cfg : Config) (env : PressureEnv) (h : PressureHistory),
      env.bmpInitialized = true → 0 < env.rawPressure →
      ((checkPressureAndLog cfg env h).serialMsgs ≠ [] ↔
        env.rawPressure / 100 >
          calculateAveragePressure (addPressureReading h (env.rawPressure / 100)) *
            (1 + cfg.pressureThreshold / 100))) ∧
    (∀ (cfg : Config) (t : Nat) (env : LogEnv) (st : FlowState),
      t - st.lastCheckTime ≠ 0 → t - st.lastCheckTime < 1000 →
      ((checkFlowAndLog cfg t env st).serialMsgs ≠ [] ↔
        (st.flowRate > calculateAverageFlow st.flowHistory *
            (1 + cfg.flowThreshold / 100) ∧
          2500 < t - st.lastLogTime))) ∧
    (∀ h : PressureHistory, h.count = 0 → calculateAveragePressure h = 0) ∧
    (∀ h : FlowHistory, h.count = 0 → calculateAverageFlow h = 0) ∧
    ((100 : ℚ) * (1 + 20 / 100) = 120) ∧
    ¬ ((120 : ℚ) > 120) ∧
    ((120.01 : ℚ) > 120) := by
  refine ⟨?_, ?_, ?_, ?_, by norm_num, by norm_num, by norm_num⟩
  · intro cfg env h hb hr
    rw [checkPressure_run cfg env h hb hr]
    by_cases hgt : env.rawPressure / 100 >
        calculateAveragePressure (addPressureReading h (env.rawPressure / 100)) *
          (1 + cfg.pressureThreshold / 100)
    · simp [hgt]
    · simp [hgt]
  · intro cfg t env st h0 h1
    rw [checkFlow_noact cfg t env st h0 h1]
    by_cases hgt : st.flowRate > calculateAverageFlow st.flowHistory *
        (1 + cfg.flowThreshold / 100)
    · by_cases hgate : 2500 < t - st.lastLogTime
      · simp [hgt, hgate]
      · simp [hgt, hgate]
    · simp [hgt]
  · intro h h0
    simp [calculateAveragePressure, h0]
  · intro h h0
    simp [calculateAverageFlow, h0]

theorem C1_witness :
    (⟨true, 100000, envAllOk⟩ : PressureEnv).bmpInitialized = true ∧
    (0 : ℚ) < (⟨true, 100000, envAllOk⟩ : PressureEnv).rawPressure ∧
    ¬ ((checkPressureAndLog defaultConfig ⟨true, 100000, envAllOk⟩
        initPressureHistory).serialMsgs ≠ []) := by
  refine ⟨rfl, by norm_num, fun hne => ?_⟩
  have h := (C1_threshold_evaluation.1 defaultConfig ⟨true, 100000, envAllOk⟩
    initPressureHistory rfl (by norm_num)).mp hne
  revert h
  norm_num [addPressureReading, calculateAveragePressure, initPressureHistory,
    PRESSURE_HISTORY_SIZE, defaultConfig, List.replicate]

/-! ## C7: per-iteration ordering -/

/-- A flow state whose stale `flowRate` (10) far exceeds what its history
(two samples of 1) justifies, with the last calculator action at 6000 ms
and the last log at 3000 ms. -/
def stStale : FlowState :=
  ⟨⟨[1, 1, 0, 0, 0, 0, 0, 0, 0, 0], 2, 2⟩, 10, 0, 6000, 3000⟩

/-- C7 counterexample. Called 500 ms after its previous action (so the
calculator does not act and nothing is pushed), the flow path still
evaluates the threshold against the stale `flowRate` and persists an
event: the history is unchanged, yet one log line is produced — so a
threshold evaluation (with an event log) happens in an iteration in which
no live value was pushed. -/
theorem C7_counterexample :
    (checkFlowAndLog defaultConfig 6500 envAllOk stStale).state.flowHistory =
      stStale.flowHistory ∧
    (checkFlowAndLog defaultConfig 6500 envAllOk stStale).logLines.length = 1 := by
  have hcond : stStale.flowRate > calculateAverageFlow stStale.flowHistory *
      (1 + defaultConfig.flowThreshold / 100) ∧
      2500 < 6500 - stStale.lastLogTime := by
    constructor
    · norm_num [stStale, calculateAverageFlow, defaultConfig]
    · norm_num [stStale]
  rw [checkFlow_noact defaultConfig 6500 envAllOk stStale (by norm_num [stStale])
    (by norm_num [stStale])]
  simp only [if_pos hcond]
  refine ⟨?_, ?_⟩ <;> simp [logGPSDataFlow, envAllOk]

/-- C7 (amended). Within one iteration of the pressure path the order
read → push → evaluate → log holds: the history leaving the call is the
old history with the live value pushed, and any log happens only under
the strict comparison against the average of that post-push buffer. On
the flow path this order holds only for the iterations in which the
calculator acts (elapsed ≥ 1000 ms): there the new rate is pushed first
and evaluated against the post-push buffer. In the other iterations
(elapsed in (0, 1000)) nothing is read or pushed, yet the threshold is
still evaluated — and an event possibly logged — using the stale
`flowRate` of an earlier iteration against the unchanged history. -/
theorem C7_ordering :
    (∀ (cfg : Config) (env : PressureEnv) (h : PressureHistory),
      env.bmpInitialized = true → 0 < env.rawPressure →
      (checkPressureAndLog cfg env h).history =
        addPressureReading h (env.rawPressure / 100) ∧
      ((checkPressureAndLog cfg env h).logLines ≠ [] →
        env.rawPressure / 100 >
          calculateAveragePressure (addPressureReading h (env.rawPressure / 100)) *
            (1 + cfg.pressureThreshold / 100))) ∧
    (∀ (cfg : Config) (t : Nat) (env : LogEnv) (st : FlowState),
      t - st.lastCheckTime ≠ 0 → t - st.lastCheckTime < 1000 →
      (checkFlowAndLog cfg t env st).state.flowHistory = st.flowHistory ∧
      ((checkFlowAndLog cfg t env st).logLines ≠ [] →
        st.flowRate > calculateAverageFlow st.flowHistory *
          (1 + cfg.flowThreshold / 100))) ∧
    (∀ (cfg : Config) (t : Nat) (env : LogEnv) (st : FlowState),
      1000 ≤ t - st.lastCheckTime →
      (checkFlowAndLog cfg t env st).state.flowHistory =
        addFlowReading st.flowHistory
          (((st.pulseCount : ℚ) / calibrationFactor) *
            (1000 / ((max (t - st.lastCheckTime) 100 : Nat) : ℚ))) ∧
      ((checkFlowAndLog cfg t env st).logLines ≠ [] →
        ((st.pulseCount : ℚ) / calibrationFactor) *
            (1000 / ((max (t - st.lastCheckTime) 100 : Nat) : ℚ)) >
          calculateAverageFlow
            (addFlowReading st.flowHistory
              (((st.pulseCount : ℚ) / calibrationFactor) *
                (1000 / ((max (t - st.lastCheckTime) 100 : Nat) : ℚ)))) *
            (1 + cfg.flowThreshold / 100))) := by
  refine ⟨?_, ?_, ?_⟩
  · intro cfg env h hb hr
    rw [checkPressure_run cfg env h hb hr]
    by_cases hgt : env.rawPressure / 100 >
        calculateAveragePressure (addPressureReading h (env.rawPressure / 100)) *
          (1 + cfg.pressureThreshold / 100)
    · exact ⟨by simp [hgt], fun _ => hgt⟩
    · exact ⟨by simp [hgt], by simp [hgt]⟩
  · intro cfg t env st h0 h1
    rw [checkFlow_noact cfg t env st h0 h1]
    by_cases hgt : st.flowRate > calculateAverageFlow st.flowHistory *
        (1 + cfg.flowThreshold / 100)
    · by_cases hgate : 2500 < t - st.lastLogTime
      · exact ⟨by simp [hgt, hgate], fun _ => hgt⟩
      · exact ⟨by simp [hgt, hgate], by simp [hgt, hgate]⟩
    · exact ⟨by simp [hgt], by simp [hgt]⟩
  · intro cfg t env st h1
    rw [checkFlow_act cfg t env st h1]
    dsimp only
    by_cases hgt : ((st.pulseCount : ℚ) / calibrationFactor) *
        (1000 / ((max (t - st.lastCheckTime) 100 : Nat) : ℚ)) >
        calculateAverageFlow
          (addFlowReading st.flowHistory
            (((st.pulseCount : ℚ) / calibrationFactor) *
              (1000 / ((max (t - st.lastCheckTime) 100 : Nat) : ℚ)))) *
          (1 + cfg.flowThreshold / 100)
    · by_cases hgate : 2500 < t - st.lastLogTime
      · rw [if_pos ⟨hgt, hgate⟩]
        exact ⟨rfl, fun _ => hgt⟩
      · rw [if_neg (fun hc => hgate hc.2)]
        exact ⟨rfl, fun hl => absurd rfl hl⟩
    · rw [if_neg (fun hc => hgt hc.1)]
      exact ⟨rfl, fun hl => absurd rfl hl⟩

theorem C7_witness :
    6500 - stStale.lastCheckTime ≠ 0 ∧ 6500 - stStale.lastCheckTime < 1000 ∧
    ((checkFlowAndLog defaultConfig 6500 envAllOk stStale).state.flowHistory =
        stStale.flowHistory ∧
      ((checkFlowAndLog defaultConfig 6500 envAllOk stStale).logLines ≠ [] →
        stStale.flowRate > calculateAverageFlow stStale.flowHistory *
          (1 + defaultConfig.flowThreshold / 100))) :=
  ⟨by norm_num [stStale], by norm_num [stStale],
    C7_ordering.2.1 defaultConfig 6500 envAllOk stStale (by norm_num [stStale])
      (by norm_num [stStale])⟩


/-! ## C3: drained-rate formula and 100 ms clamp -/

/-- C3. Whenever the calculator acts (elapsed ≥ 1000 ms), the new rate is
`(drainedCount / calibrationFactor) * (1000 / max(elapsed, 100))`, the
divisor is at least 100, the counter is zeroed, and the action timestamp
becomes the current time. -/
theorem C3_flow_rate_clamp (cfg : Config) (t : Nat) (env : LogEnv)
    (st : FlowState) (hact : 1000 ≤ t - st.lastCheckTime) :
    (checkFlowAndLog cfg t env st).state.flowRate =
      ((st.pulseCount : ℚ) / calibrationFactor) *
        (1000 / ((max (t - st.lastCheckTime) 100 : Nat) : ℚ)) ∧
    100 ≤ max (t - st.lastCheckTime) 100 ∧
    (checkFlowAndLog cfg t env st).state.pulseCount = 0 ∧
    (checkFlowAndLog cfg t env st).state.lastCheckTime = t := by
  rw [checkFlow_act cfg t env st hact]
  dsimp only
  split_ifs with hc
  · exact ⟨rfl, Nat.le_max_right _ _, rfl, rfl⟩
  · exact ⟨rfl, Nat.le_max_right _ _, rfl, rfl⟩

/-- Start state of the flow rate-limit scenario: 300 pending pulses, two
modest history samples, last calculator action at 0, last log at the
initial 3000. -/
def flowStart : FlowState :=
  ⟨⟨[1, 1, 0, 0, 0, 0, 0, 0, 0, 0], 2, 2⟩, 0, 300, 0, 3000⟩

theorem C3_witness :
    1000 ≤ 6000 - flowStart.lastCheckTime ∧
    ((checkFlowAndLog defaultConfig 6000 envAllOk flowStart).state.flowRate =
      ((flowStart.pulseCount : ℚ) / calibrationFactor) *
        (1000 / ((max (6000 - flowStart.lastCheckTime) 100 : Nat) : ℚ)) ∧
    100 ≤ max (6000 - flowStart.lastCheckTime) 100 ∧
    (checkFlowAndLog defaultConfig 6000 envAllOk flowStart).state.pulseCount = 0 ∧
    (checkFlowAndLog defaultConfig 6000 envAllOk flowStart).state.lastCheckTime
      = 6000) :=
  ⟨by norm_num [flowStart],
    C3_flow_rate_clamp defaultConfig 6000 envAllOk flowStart
      (by norm_num [flowStart])⟩

/-! ## C4: flow-path rate limiting -/

theorem checkFlow_logGate (cfg : Config) (t : Nat) (env : LogEnv)
    (st : FlowState) :
    ((checkFlowAndLog cfg t env st).logLines ≠ [] → 2500 < t - st.lastLogTime) ∧
    ((checkFlowAndLog cfg t env st).serialMsgs ≠ [] →
      (checkFlowAndLog cfg t env st).state.lastLogTime = t) := by
  by_cases h0 : t - st.lastCheckTime = 0
  · rw [checkFlow_noop cfg t env st h0]
    exact ⟨fun hl => absurd rfl hl, fun hm => absurd rfl hm⟩
  · by_cases h1 : 1000 ≤ t - st.lastCheckTime
    · rw [checkFlow_act cfg t env st h1]
      dsimp only
      split_ifs with hc
      · exact ⟨fun _ => hc.2, fun _ => rfl⟩
      · exact ⟨fun hl => absurd rfl hl, fun hm => absurd rfl hm⟩
    · rw [checkFlow_noact cfg t env st h0 (by omega)]
      dsimp only
      split_ifs with hc
      · exact ⟨fun _ => hc.2, fun _ => rfl⟩
      · exact ⟨fun hl => absurd rfl hl, fun hm => absurd rfl hm⟩

theorem checkFlow_env_indep (cfg : Config) (t : Nat) (env env' : LogEnv)
    (st : FlowState) :
    (checkFlowAndLog cfg t env st).state = (checkFlowAndLog cfg t env' st).state ∧
    (checkFlowAndLog cfg t env st).serialMsgs =
      (checkFlowAndLog cfg t env' st).serialMsgs := by
  by_cases h0 : t - st.lastCheckTime = 0
  · rw [checkFlow_noop cfg t env st h0, checkFlow_noop cfg t env' st h0]
    exact ⟨rfl, rfl⟩
  · by_cases h1 : 1000 ≤ t - st.lastCheckTime
    · rw [checkFlow_act cfg t env st h1, checkFlow_act cfg t env' st h1]
      dsimp only
      split_ifs with hc <;> exact ⟨rfl, rfl⟩
    · rw [checkFlow_noact cfg t env st h0 (by omega),
        checkFlow_noact cfg t env' st h0 (by omega)]
      dsimp only
      split_ifs with hc <;> exact ⟨rfl, rfl⟩

/-- State after the first scenario call, with the 300 pulses the interrupt
handler accumulates before the next call. -/
def flowSt2 : FlowState :=
  ⟨⟨[1, 1, 20/3, 0, 0, 0, 0, 0, 0, 0], 3, 3⟩, 20/3, 300, 6000, 6000⟩

theorem flowScenario1 :
    (checkFlowAndLog defaultConfig 6000 envAllOk flowStart).logLines.length = 1 ∧
    (checkFlowAndLog defaultConfig 6000 envAllOk flowStart).state =
      { flowSt2 with pulseCount := 0 } := by
  rw [checkFlow_act defaultConfig 6000 envAllOk flowStart (by norm_num [flowStart])]
  dsimp only
  have hrate : ((flowStart.pulseCount : ℚ) / calibrationFactor) *
      (1000 / ((max (6000 - flowStart.lastCheckTime) 100 : Nat) : ℚ)) = 20/3 := by
    norm_num [flowStart, calibrationFactor, Nat.max_def]
  rw [hrate]
  have hhist : addFlowReading flowStart.flowHistory (20/3) =
      ⟨[1, 1, 20/3, 0, 0, 0, 0, 0, 0, 0], 3, 3⟩ := by
    norm_num [flowStart, addFlowReading, PRESSURE_HISTORY_SIZE]
  rw [hhist]
  have havg : calculateAverageFlow ⟨[1, 1, 20/3, 0, 0, 0, 0, 0, 0, 0], 3, 3⟩
      = 26/9 := by
    norm_num [calculateAverageFlow]
  rw [havg]
  have hcond : (20/3 : ℚ) > 26/9 * (1 + defaultConfig.flowThreshold / 100) ∧
      2500 < 6000 - flowStart.lastLogTime := by
    refine ⟨by norm_num [defaultConfig], by norm_num [flowStart]⟩
  rw [if_pos hcond]
  refine ⟨by simp [logGPSDataFlow, envAllOk], ?_⟩
  simp [flowSt2, flowStart]

theorem flowScenario2 :
    (checkFlowAndLog defaultConfig 7000 envAllOk flowSt2).logLines.length = 0 ∧
    (checkFlowAndLog defaultConfig 7000 envAllOk flowSt2).state.flowRate >
      calculateAverageFlow
          (checkFlowAndLog defaultConfig 7000 envAllOk flowSt2).state.flowHistory *
        (1 + defaultConfig.flowThreshold / 100) := by
  rw [checkFlow_act defaultConfig 7000 envAllOk flowSt2 (by norm_num [flowSt2])]
  dsimp only
  have hrate : ((flowSt2.pulseCount : ℚ) / calibrationFactor) *
      (1000 / ((max (7000 - flowSt2.lastCheckTime) 100 : Nat) : ℚ)) = 40 := by
    norm_num [flowSt2, calibrationFactor, Nat.max_def]
  rw [hrate]
  have hhist : addFlowReading flowSt2.flowHistory 40 =
      ⟨[1, 1, 20/3, 40, 0, 0, 0, 0, 0, 0], 4, 4⟩ := by
    norm_num [flowSt2, addFlowReading, PRESSURE_HISTORY_SIZE]
  rw [hhist]
  have havg : calculateAverageFlow ⟨[1, 1, 20/3, 40, 0, 0, 0, 0, 0, 0], 4, 4⟩
      = 73/6 := by
    norm_num [calculateAverageFlow]
  rw [havg]
  have hcond : ¬ ((40 : ℚ) > 73/6 * (1 + defaultConfig.flowThreshold / 100) ∧
      2500 < 7000 - flowSt2.lastLogTime) :=
    fun hc => absurd hc.2 (by norm_num [flowSt2])
  rw [if_neg hcond]
  exact ⟨rfl, by norm_num [defaultConfig, havg]⟩

theorem flowScenario3 :
    (checkFlowAndLog defaultConfig 9000 envAllOk flowSt2).logLines.length = 1 := by
  rw [checkFlow_act defaultConfig 9000 envAllOk flowSt2 (by norm_num [flowSt2])]
  dsimp only
  have hrate : ((flowSt2.pulseCount : ℚ) / calibrationFactor) *
      (1000 / ((max (9000 - flowSt2.lastCheckTime) 100 : Nat) : ℚ)) = 40/3 := by
    norm_num [flowSt2, calibrationFactor, Nat.max_def]
  rw [hrate]
  have hhist : addFlowReading flowSt2.flowHistory (40/3) =
      ⟨[1, 1, 20/3, 40/3, 0, 0, 0, 0, 0, 0], 4, 4⟩ := by
    norm_num [flowSt2, addFlowReading, PRESSURE_HISTORY_SIZE]
  rw [hhist]
  have havg : calculateAverageFlow ⟨[1, 1, 20/3, 40/3, 0, 0, 0, 0, 0, 0], 4, 4⟩
      = 11/2 := by
    norm_num [calculateAverageFlow]
  rw [havg]
  have hcond : (40/3 : ℚ) > 11/2 * (1 + defaultConfig.flowThreshold / 100) ∧
      2500 < 9000 - flowSt2.lastLogTime := by
    refine ⟨by norm_num [defaultConfig], by norm_num [flowSt2]⟩
  rw [if_pos hcond]
  simp [logGPSDataFlow, envAllOk]

/-- C4. Flow-path rate limiting: a record is persisted only when at least
2500 ms have elapsed since the last gate pass (the code's strict
`> 2500` implies the claim's "at least 2500"); the `lastLogTime` update is
independent of the storage/GPS environment and is set to the current time
whenever the gate passes (observable through the always-emitted serial
message); and in the concrete scenario, anomalous samples at 6000 ms and
7000 ms (1000 ms apart, the second sample anomalous as well) persist
exactly one record, while samples at 6000 ms and 9000 ms (3000 ms apart)
persist two. -/
theorem C4_rate_limit :
    (∀ (cfg : Config) (t : Nat) (env : LogEnv) (st : FlowState),
      (checkFlowAndLog cfg t env st).logLines ≠ [] →
      2500 ≤ t - st.lastLogTime) ∧
    (∀ (cfg : Config) (t : Nat) (env env' : LogEnv) (st : FlowState),
      (checkFlowAndLog cfg t env st).state.lastLogTime =
        (checkFlowAndLog cfg t env' st).state.lastLogTime) ∧
    (∀ (cfg : Config) (t : Nat) (env : LogEnv) (st : FlowState),
      (checkFlowAndLog cfg t env st).serialMsgs ≠ [] →
      (checkFlowAndLog cfg t env st).state.lastLogTime = t) ∧
    (checkFlowAndLog defaultConfig 6000 envAllOk flowStart).logLines.length = 1 ∧
    (checkFlowAndLog defaultConfig 6000 envAllOk flowStart).state =
      { flowSt2 with pulseCount := 0 } ∧
    (checkFlowAndLog defaultConfig 7000 envAllOk flowSt2).logLines.length = 0 ∧
    (checkFlowAndLog defaultConfig 7000 envAllOk flowSt2).state.flowRate >
      calculateAverageFlow
          (checkFlowAndLog defaultConfig 7000 envAllOk flowSt2).state.flowHistory *
        (1 + defaultConfig.flowThreshold / 100) ∧
    (checkFlowAndLog defaultConfig 9000 envAllOk flowSt2).logLines.length = 1 :=
  ⟨fun cfg t env st hl => le_of_lt ((checkFlow_logGate cfg t env st).1 hl),
    fun cfg t env env' st =>
      congrArg FlowState.lastLogTime (checkFlow_env_indep cfg t env env' st).1,
    fun cfg t env st hm => (checkFlow_logGate cfg t env st).2 hm,
    flowScenario1.1, flowScenario1.2, flowScenario2.1, flowScenario2.2,
    flowScenario3⟩

theorem C4_witness :
    (checkFlowAndLog defaultConfig 6000 envAllOk flowStart).logLines ≠ [] ∧
    2500 ≤ 6000 - flowStart.lastLogTime :=
  have hne : (checkFlowAndLog defaultConfig 6000 envAllOk flowStart).logLines
      ≠ [] := by
    intro he
    have hlen := C4_rate_limit.2.2.2.1
    rw [he] at hlen
    exact absurd hlen (by norm_num)
  ⟨hne, C4_rate_limit.1 defaultConfig 6000 envAllOk flowStart hne⟩

/-! ## C9: configuration recovery and round trip -/

def argsEmptySsid : ConfigArgs := ⟨"BMP", 1, 1, "", "newpass", "dev"⟩

set_option maxRecDepth 8192 in
/-- C9 counterexample. Applying a configuration whose ssid is empty, then
persisting and loading it on a fresh (default) instance, yields an empty
ssid: the empty field is applied verbatim, it does **not** retain the
prior value "Aspol Tracker". Only the password has a non-empty guard in
`handleConfig`. -/
theorem C9_counterexample :
    (loadConfig (saveConfig (handleConfig argsEmptySsid defaultConfig))
      defaultConfig).ssid = "" ∧
    defaultConfig.ssid = "Aspol Tracker" ∧
    ("" : String) ≠ "Aspol Tracker" :=
  ⟨by decide, rfl, by decide⟩

/-- C9 (amended). Field-by-field recovery on load: a persisted threshold
that is non-positive (which is what `parseFloat` yields for a malformed
field) leaves the threshold at its previous value, a positive one is
applied. An apply–persist–load round trip onto a fresh default instance
reproduces the applied string fields verbatim (after the C buffer
truncation, provided they survive trimming) — including empty ones —
reproduces positive thresholds, falls back to the fresh instance's
defaults for non-positive thresholds, and keeps the old password exactly
when the applied password is empty. -/
theorem C9_config_recovery :
    (∀ (f : ConfigFile) (c : Config), f.pressureValue ≤ 0 →
      (loadConfig f c).pressureThreshold = c.pressureThreshold) ∧
    (∀ (f : ConfigFile) (c : Config), 0 < f.pressureValue →
      (loadConfig f c).pressureThreshold = f.pressureValue) ∧
    (∀ (f : ConfigFile) (c : Config), f.flowValue ≤ 0 →
      (loadConfig f c).flowThreshold = c.flowThreshold) ∧
    (∀ (args : ConfigArgs) (c : Config),
      (handleConfig args c).password =
        (if args.password.length > 0 then args.password.take 31 else c.password)) ∧
    (∀ (args : ConfigArgs) (c : Config),
      (loadConfig (saveConfig (handleConfig args c))
          defaultConfig).pressureThreshold =
        (if args.pressureThresholdVal > 0 then args.pressureThresholdVal
         else defaultConfig.pressureThreshold)) ∧
    (∀ (args : ConfigArgs) (c : Config),
      (loadConfig (saveConfig (handleConfig args c)) defaultConfig).flowThreshold =
        (if args.flowThresholdVal > 0 then args.flowThresholdVal
         else defaultConfig.flowThreshold)) ∧
    (∀ (args : ConfigArgs) (c : Config),
      (trimModel (args.ssid.take 31)).take 31 = args.ssid.take 31 →
      (loadConfig (saveConfig (handleConfig args c)) defaultConfig).ssid =
        args.ssid.take 31) ∧
    (∀ (args : ConfigArgs) (c : Config),
      (trimModel (args.deviceName.take 31)).take 31 = args.deviceName.take 31 →
      (loadConfig (saveConfig (handleConfig args c)) defaultConfig).deviceName =
        args.deviceName.take 31) ∧
    (∀ (args : ConfigArgs) (c : Config),
      (trimModel (args.sensorType.take 9)).take 9 = args.sensorType.take 9 →
      (loadConfig (saveConfig (handleConfig args c)) defaultConfig).currentSensor =
        args.sensorType.take 9) := by
  refine ⟨fun f c hf => ?_, fun f c hf => ?_, fun f c hf => ?_,
    fun args c => rfl, fun args c => ?_, fun args c => ?_,
    fun args c h => ?_, fun args c h => ?_, fun args c h => ?_⟩
  · simp [loadConfig, if_neg (not_lt.mpr hf)]
  · simp [loadConfig, if_pos hf]
  · simp [loadConfig, if_neg (not_lt.mpr hf)]
  · simp [loadConfig, saveConfig, handleConfig]
  · simp [loadConfig, saveConfig, handleConfig]
  · simpa [loadConfig, saveConfig, handleConfig] using h
  · simpa [loadConfig, saveConfig, handleConfig] using h
  · simpa [loadConfig, saveConfig, handleConfig] using h

def argsRoundTrip : ConfigArgs := ⟨"YF401", 5, 0, "net", "", "dev"⟩

set_option maxRecDepth 8192 in
theorem C9_witness :
    (trimModel (argsRoundTrip.ssid.take 31)).take 31 = argsRoundTrip.ssid.take 31 ∧
    (loadConfig (saveConfig (handleConfig argsRoundTrip defaultConfig))
        defaultConfig).ssid = argsRoundTrip.ssid.take 31 ∧
    (loadConfig (saveConfig (handleConfig argsRoundTrip defaultConfig))
        defaultConfig).flowThreshold = defaultConfig.flowThreshold :=
  ⟨by decide,
    C9_config_recovery.2.2.2.2.2.2.1 argsRoundTrip defaultConfig (by decide),
    (C9_config_recovery.2.2.2.2.2.1 argsRoundTrip defaultConfig).trans
      (by norm_num [argsRoundTrip])⟩

/-! ## C10: persisted event line format -/

theorem string_data_append (s t : String) : (s ++ t).data = s.data ++ t.data := rfl

theorem sep_ne_core (a x : List Char) (c₁ c₂ : Char) (hne : c₁ ≠ c₂) :
    a ++ c₁ :: x ≠ a ++ c₂ :: x := by
  intro heq
  have h := List.append_cancel_left heq
  simp only [List.cons.injEq] at h
  exact hne h.1

/-- C10 counterexample. The pressure-path writer produces its line with a
**space** between the date and time fields (`"%02d/%02d/%04d %02d:..."`),
not the comma of the claimed `DD/MM/YYYY,HH:MM:SS,...` shape: at a
concrete timestamp and fix, the persisted pressure line differs from the
claimed form. -/
theorem C10_counterexample :
    (logGPSData envAllOk 3).1 =
      some (pressureLogLine envAllOk.now envAllOk.gps.lat envAllOk.gps.lng 3) ∧
    pressureLogLine envAllOk.now envAllOk.gps.lat envAllOk.gps.lng 3 ≠
      specEventLine envAllOk.now envAllOk.gps.lat envAllOk.gps.lng 3 := by
  refine ⟨rfl, fun heq => ?_⟩
  have hd := congrArg String.data heq
  simp only [pressureLogLine, specEventLine, string_data_append,
    List.append_assoc] at hd
  simp only [List.singleton_append] at hd
  exact sep_ne_core _ _ ' ' ',' (by decide) hd

/-- C10 (amended). Whenever a record is persisted, the flow path writes
exactly the claimed `DD/MM/YYYY,HH:MM:SS,lat(6dp),lng(6dp),value(2dp)\n`
line, while the pressure path writes the same fields with a space instead
of the first comma: `DD/MM/YYYY HH:MM:SS,lat(6dp),lng(6dp),value(2dp)\n`. -/
theorem C10_line_format (env : LogEnv) (v : ℚ)
    (hsd : env.sdCardAvailable = true) (hg : env.gps.valid = true)
    (hf : env.fileOpenOk = true) :
    (logGPSDataFlow env v).1 =
      some (specEventLine env.now env.gps.lat env.gps.lng v) ∧
    (logGPSData env v).1 =
      some (datePart env.now ++ " " ++ timePart env.now ++ "," ++
        coordValuePart env.gps.lat env.gps.lng v) := by
  constructor
  · simp [logGPSDataFlow, hsd, hg, hf, flowLogLine, specEventLine]
  · simp [logGPSData, hsd, hg, hf, pressureLogLine]

theorem C10_witness :
    envAllOk.sdCardAvailable = true ∧ envAllOk.gps.valid = true ∧
    envAllOk.fileOpenOk = true ∧
    ((logGPSDataFlow envAllOk 3).1 =
      some (specEventLine envAllOk.now envAllOk.gps.lat envAllOk.gps.lng 3) ∧
    (logGPSData envAllOk 3).1 =
      some (datePart envAllOk.now ++ " " ++ timePart envAllOk.now ++ "," ++
        coordValuePart envAllOk.gps.lat envAllOk.gps.lng 3)) :=
  ⟨rfl, rfl, rfl, C10_line_format envAllOk 3 rfl rfl rfl⟩
